import Mathlib

/-!
Verification of the directory-listing core of the `rvl` repository
(`src/file_system/directory.rs`), shallowly embedded in Lean.

Modelling conventions:
  - Machine integers (`u32`, `u64`) carry no arithmetic in the listed code
    beyond being read from metadata, so they are embedded as `Nat`.
  - The `ReadDir` stream is embedded as a list of `RawItem` values, one per
    raw stream item, each recording the outcome of every operating-system
    call the loop in `Directory::get_entries` performs on that item.
  - Rust's `sort_by_key` is a stable sort by the entry name under `String`'s
    total order (byte-wise lexicographic on the UTF-8 encoding, which
    coincides with code-point lexicographic order, the order on Lean
    strings).  A stable sort by a total key order is unique as a function,
    so it is embedded as `List.insertionSort` on the name order.
  - Fallible operations (`read_dir`, per-item OS calls) are embedded as
    `Except` / `Option` values.
-/

namespace Rvl

/-- The file-type predicates of `std::fs::FileType` that
`DirectoryEntryKind::from` consults (`is_file`, `is_dir`, `is_socket`,
`is_char_device`, `is_block_device`, `is_fifo`). -/
structure FileType where
  is_file : Bool
  is_dir : Bool
  is_socket : Bool
  is_char_device : Bool
  is_block_device : Bool
  is_fifo : Bool
deriving DecidableEq

/-- The enumeration `DirectoryEntryKind` of `directory.rs`. -/
inductive DirectoryEntryKind
  | File
  | Directory
  | Socket
  | Character
  | Block
  | Fifo
  | Unknown
deriving DecidableEq

/-- `DirectoryEntryKind::from`: the fixed-precedence classifier chain
(`is_file`, then `is_dir`, `is_socket`, `is_char_device`,
`is_block_device`, `is_fifo`, else `Unknown`).  Named `fromType` because
`from` is a reserved word in Lean. -/
def DirectoryEntryKind.fromType (file_type : FileType) : DirectoryEntryKind :=
  if file_type.is_file then DirectoryEntryKind.File
  else if file_type.is_dir then DirectoryEntryKind.Directory
  else if file_type.is_socket then DirectoryEntryKind.Socket
  else if file_type.is_char_device then DirectoryEntryKind.Character
  else if file_type.is_block_device then DirectoryEntryKind.Block
  else if file_type.is_fifo then DirectoryEntryKind.Fifo
  else DirectoryEntryKind.Unknown

/-- `DirectoryEntryKind::as_string`. -/
def DirectoryEntryKind.as_string : DirectoryEntryKind → String
  | DirectoryEntryKind.File => "File"
  | DirectoryEntryKind.Directory => "Directory"
  | DirectoryEntryKind.Socket => "Socket"
  | DirectoryEntryKind.Character => "Character"
  | DirectoryEntryKind.Block => "Block"
  | DirectoryEntryKind.Fifo => "Fifo"
  | DirectoryEntryKind.Unknown => "Unknown"

/-- The fields of `std::fs::Metadata` that `Directory::get_entries` reads:
`file_type()`, `size()`, `uid()`, `permissions().mode()`. -/
structure Metadata where
  file_type : FileType
  size : Nat
  uid : Nat
  mode : Nat
deriving DecidableEq

/-- An `OsStr` base name: `to_str()` yields `some` text exactly when the
name is valid UTF-8. -/
structure OsString where
  utf8 : Option String
deriving DecidableEq

/-- One raw item of the `ReadDir` stream, together with the outcome of each
operating-system call `Directory::get_entries` makes on it:

  - `ok`: whether the stream yielded `Ok(entry)` rather than `Err`;
  - `fileName`: the result of `path.file_name()`;
  - `metadata`: the result of `path.metadata()`.  `Path::metadata` follows
    symbolic links, so when the item is a symlink this is the metadata of
    the link's target, and it is `none` for a broken link;
  - `linkMetadata`: the metadata of the link object itself (what
    `symlink_metadata` would return).  The code never reads it; it is
    carried in the model so that independence from it can be stated;
  - `isSymlink`: whether the directory member is itself a symbolic link;
  - `readLinkTarget`: the result of `read_link(path)` — the raw stored
    target on success, `none` on failure (in particular whenever the item
    is not a symlink). -/
structure RawItem where
  ok : Bool
  fileName : Option OsString
  metadata : Option Metadata
  linkMetadata : Option Metadata
  isSymlink : Bool
  readLinkTarget : Option String
deriving DecidableEq

/-- Modelled from the spec: `users::UnixUser` is not under `src/`.  The User
Resolver maps a numeric owner id to a display name, or indicates unknown;
a resolved user carries its display name, returned by `get_name`. -/
structure UnixUser where
  name : String
deriving DecidableEq

/-- Modelled from the spec: `UnixUser::get_name` returns the display name. -/
def UnixUser.get_name (u : UnixUser) : String := u.name

/-- Modelled from the spec: `file_system::permissions::UnixPermissions` is
not under `src/`.  The Permission Formatter converts a numeric mode into a
symbolic string and an octal display; it stores the numeric mode. -/
structure UnixPermissions where
  mode : Nat
deriving DecidableEq

/-- Modelled from the spec: `UnixPermissions::from` wraps the numeric mode.
Named `fromMode` because `from` is a reserved word in Lean. -/
def UnixPermissions.fromMode (mode : Nat) : UnixPermissions := ⟨mode⟩

/-- One symbolic permission character: the given letter when the mode bit at
the given position is set, `-` otherwise. -/
def permissionChar (p : UnixPermissions) (bit : Nat) (c : Char) : Char :=
  if p.mode / 2 ^ bit % 2 = 1 then c else '-'

/-- Modelled from the spec: `UnixPermissions::as_string`, the symbolic
`rwxrwxrwx` rendering of the nine low permission bits. -/
def UnixPermissions.as_string (p : UnixPermissions) : String :=
  String.mk [permissionChar p 8 'r', permissionChar p 7 'w', permissionChar p 6 'x',
    permissionChar p 5 'r', permissionChar p 4 'w', permissionChar p 3 'x',
    permissionChar p 2 'r', permissionChar p 1 'w', permissionChar p 0 'x']

/-- Modelled from the spec: `UnixPermissions::as_bits_sum`, the numeric
mode's low permission bits (the three `rwx` triples, i.e. the mode modulo
`0o1000 = 512`), the number printed base-8 in each entry line. -/
def UnixPermissions.as_bits_sum (p : UnixPermissions) : Nat := p.mode % 512

/-- Modelled from the spec: `file_system::sizes::DigitalSize` is not under
`src/`.  The Size Formatter converts a byte count into a human-scaled
string; it stores the byte count. -/
structure DigitalSize where
  bytes : Nat
deriving DecidableEq

/-- Modelled from the spec: `DigitalSize::from` wraps the byte count.
Named `fromBytes` because `from` is a reserved word in Lean. -/
def DigitalSize.fromBytes (size_in_bytes : Nat) : DigitalSize := ⟨size_in_bytes⟩

/-- Modelled from the spec: `DigitalSize::as_string` renders the byte count
human-scaled.  The exact scaling rules are not specified, so a simple
power-of-1024 scaling stands in; no claim depends on the rendering. -/
def DigitalSize.as_string (s : DigitalSize) : String :=
  if s.bytes < 1024 then toString s.bytes ++ "B"
  else if s.bytes < 1024 * 1024 then toString (s.bytes / 1024) ++ "K"
  else if s.bytes < 1024 * 1024 * 1024 then toString (s.bytes / (1024 * 1024)) ++ "M"
  else toString (s.bytes / (1024 * 1024 * 1024)) ++ "G"

/-- The `DirectoryEntry` record of `directory.rs`. -/
structure DirectoryEntry where
  name : String
  permissions : UnixPermissions
  kind : DirectoryEntryKind
  size : DigitalSize
  owner : Option UnixUser
  symlink_path : Option String
deriving DecidableEq

/-- The `symlink_decorator` binding of `DirectoryEntry::as_string`: `@` when
a symlink target is present, a space otherwise. -/
def DirectoryEntry.symlinkDecorator (e : DirectoryEntry) : String :=
  match e.symlink_path with
  | some _ => "@"
  | none => " "

/-- The `owner` binding of `DirectoryEntry::as_string`: the resolved display
name, or the empty string when the owner is absent. -/
def DirectoryEntry.ownerString (e : DirectoryEntry) : String :=
  match e.owner with
  | some owner => owner.get_name
  | none => ""

/-- The `symlink_path` binding of `DirectoryEntry::as_string`: the
` -> target` suffix when a target is present, empty otherwise. -/
def DirectoryEntry.symlinkSuffix (e : DirectoryEntry) : String :=
  match e.symlink_path with
  | some symlink_path => " -> " ++ symlink_path
  | none => ""

/-- Rust's `{:<w}` padding: left-align to a minimum width. -/
def padRightTo (w : Nat) (s : String) : String :=
  s ++ String.mk (List.replicate (w - s.length) ' ')

/-- Rust's `{:>w}` padding: right-align to a minimum width. -/
def padLeftTo (w : Nat) (s : String) : String :=
  String.mk (List.replicate (w - s.length) ' ') ++ s

/-- The octal digit characters used by Rust's `{:o}` formatting. -/
def octalDigitChar (d : Nat) : Char :=
  match d with
  | 0 => '0'
  | 1 => '1'
  | 2 => '2'
  | 3 => '3'
  | 4 => '4'
  | 5 => '5'
  | 6 => '6'
  | 7 => '7'
  | _ => '?'

/-- Rust's `{:o}` formatting of a natural number: its base-8 digits,
most significant first, `0` rendered as the single digit `0`. -/
def toOctalString (n : Nat) : String :=
  if n = 0 then "0"
  else String.mk ((Nat.digits 8 n).reverse.map octalDigitChar)

/-- The numeric value of an octal digit character. -/
def octalCharVal (c : Char) : Nat := c.toNat - 48

/-- Reading a base-8 numeral back as a number (the parse direction of the
round-trip property). -/
def parseOctal (s : String) : Nat :=
  Nat.ofDigits 8 (s.data.map octalCharVal).reverse

/-- `DirectoryEntry::as_string`: the Rust format string
`{}{:<9}   {:>7}   {} ({:o})   {:<10}   {}{}` applied to the decorator, the
kind name, the size, the symbolic permissions, the octal bits sum, the
owner, the name, and the symlink suffix. -/
def DirectoryEntry.as_string (e : DirectoryEntry) : String :=
  e.symlinkDecorator ++ padRightTo 9 e.kind.as_string ++ "   " ++
    padLeftTo 7 e.size.as_string ++ "   " ++ e.permissions.as_string ++
    " (" ++ toOctalString e.permissions.as_bits_sum ++ ")   " ++
    padRightTo 10 e.ownerString ++ "   " ++ e.name ++ e.symlinkSuffix

/-- Modelled from the spec: `errors::Error` is not under `src/`.  An error
carries a short message, a remediation hint, and the process exit code;
`throw` surfaces it and terminates with that code. -/
structure Error where
  message : String
  hint : String
  code : Nat
deriving DecidableEq

/-- The `Directory` traversal session: a path and the exclusively owned
entry stream. -/
structure Directory where
  path : String
  stream : List RawItem
deriving DecidableEq

/-- `Directory::get_stream`: the outcome of `read_dir(path)` is the input;
on failure the operation terminates with the error built at
`directory.rs:168-172` (exit code 1). -/
def Directory.get_stream (read_dir_result : Option (List RawItem)) :
    Except Error (List RawItem) :=
  match read_dir_result with
  | some stream => Except.ok stream
  | none =>
      Except.error
        ⟨"could not read directory.",
         "ensure that you have enough permissions to read it.", 1⟩

/-- `Directory::from`: binds the path and the freshly opened stream.
Named `fromPath` because `from` is a reserved word in Lean. -/
def Directory.fromPath (path : String) (read_dir_result : Option (List RawItem)) :
    Except Error Directory :=
  (Directory.get_stream read_dir_result).map (fun stream => ⟨path, stream⟩)

/-- The body of the `for` loop of `Directory::get_entries` on one raw item:
each `match … continue` that drops the item becomes `none`, and a built
`DirectoryEntry` becomes `some`.  `resolve` stands for `UnixUser::from`,
the User Resolver (modelled from the spec: the `users` module is not under
`src/`). -/
def processItem (resolve : Nat → Option UnixUser) (it : RawItem) :
    Option DirectoryEntry :=
  match it.ok with
  | false => none
  | true =>
    match it.fileName with
    | none => none
    | some file_name =>
      match file_name.utf8 with
      | none => none
      | some name =>
        match it.metadata with
        | none => none
        | some metadata =>
          some
            { name := name
              permissions := UnixPermissions.fromMode metadata.mode
              kind := DirectoryEntryKind.fromType metadata.file_type
              size := DigitalSize.fromBytes metadata.size
              owner := resolve metadata.uid
              symlink_path := it.readLinkTarget }

/-- The accumulation loop of `Directory::get_entries` over the whole stream:
dropped items contribute nothing, kept items append their record in stream
order. -/
def collectEntries (resolve : Nat → Option UnixUser) (stream : List RawItem) :
    List DirectoryEntry :=
  stream.filterMap (processItem resolve)

/-- The predicate characterising which raw items survive the per-item steps
of `Directory::get_entries`: yielded without error, base name present and
representable as text, metadata fetched. -/
def keeps (it : RawItem) : Bool :=
  it.ok &&
    (match it.fileName with
     | some file_name => file_name.utf8.isSome
     | none => false) &&
    it.metadata.isSome

/-- The sort key order of `entries.sort_by_key(|entry| entry.name.clone())`:
comparison of entry names. -/
def entryLe (a b : DirectoryEntry) : Prop := a.name ≤ b.name

instance : DecidableRel entryLe :=
  fun a b => inferInstanceAs (Decidable (a.name ≤ b.name))

instance : IsTotal DirectoryEntry entryLe :=
  ⟨fun a b => le_total a.name b.name⟩

instance : IsTrans DirectoryEntry entryLe :=
  ⟨fun _ _ _ h h' => le_trans h h'⟩

/-- `Directory::get_entries` (`&mut self`): consumes the stream by `by_ref`,
collects the surviving records, sorts them stably by name, and leaves the
stream exhausted. -/
def Directory.get_entries (resolve : Nat → Option UnixUser) (d : Directory) :
    List DirectoryEntry × Directory :=
  (List.insertionSort entryLe (collectEntries resolve d.stream),
    { d with stream := [] })

/-- The lines printed by `Directory::reveal`: the directory header, the
column header, then one line per entry carrying the zero-based running
index.  `fmt` stands for `NumberFormatter::format_u32`, the locale-grouped
Number Formatter (modelled from the spec: the `locale` module is not under
`src/`). -/
def revealLines (fmt : Nat → String) (path : String)
    (entries : List DirectoryEntry) : List String :=
  ("Revealing directory: " ++ path ++ ".") ::
    " Index | Type            Size   Permissions       Owner        Name" ::
    entries.enum.map (fun p => padLeftTo 6 (fmt p.1) ++ " | " ++ p.2.as_string)

/-- `Directory::reveal` (`&mut self`): one listing pass, then the printed
report. -/
def Directory.reveal (resolve : Nat → Option UnixUser) (fmt : Nat → String)
    (d : Directory) : List String × Directory :=
  let r := d.get_entries resolve
  (revealLines fmt d.path r.1, r.2)

/-- The whole operation on one directory path: open the stream (fatal on
failure), then reveal. -/
def runDirectory (resolve : Nat → Option UnixUser) (fmt : Nat → String)
    (path : String) (read_dir_result : Option (List RawItem)) :
    Except Error (List String) :=
  match Directory.get_stream read_dir_result with
  | Except.error e => Except.error e
  | Except.ok stream => Except.ok ((Directory.reveal resolve fmt ⟨path, stream⟩).1)

/-- A sample resolver for concrete evaluations. -/
def sampleResolve : Nat → Option UnixUser :=
  fun uid => if uid = 0 then some ⟨"root"⟩ else none

/-- A sample number formatter for concrete evaluations. -/
def sampleFmt : Nat → String := fun n => toString n

/-- A sample raw item that survives every per-item step. -/
def goodItem : RawItem :=
  ⟨true, some ⟨some "a.txt"⟩,
    some ⟨⟨true, false, false, false, false, false⟩, 10, 0, 420⟩,
    none, false, none⟩

/-- A sample raw item whose stream yield failed. -/
def badItem : RawItem := ⟨false, none, none, none, false, none⟩

/-- A sample raw item that is a readable symbolic link to `a.txt`. -/
def linkItem : RawItem :=
  ⟨true, some ⟨some "c"⟩,
    some ⟨⟨true, false, false, false, false, false⟩, 10, 0, 420⟩,
    none, true, some "a.txt"⟩

/-- The record `processItem` builds from `linkItem` under `sampleResolve`. -/
def linkEntry : DirectoryEntry :=
  ⟨"c", ⟨420⟩, DirectoryEntryKind.File, ⟨10⟩, some ⟨"root"⟩, some "a.txt"⟩

/-- A sample entry whose owning uid was not resolvable. -/
def ownerlessEntry : DirectoryEntry :=
  ⟨"b", ⟨493⟩, DirectoryEntryKind.Directory, ⟨4096⟩, none, none⟩

/-- A sample raw item for a broken symbolic link: `read_link` succeeds but
the metadata fetch through the link fails. -/
def brokenLinkItem : RawItem :=
  ⟨true, some ⟨some "dead"⟩, none, none, true, some "gone"⟩

theorem processItem_isSome (resolve : Nat → Option UnixUser) (it : RawItem) :
    (processItem resolve it).isSome = keeps it := by
  obtain ⟨ok, fn, md, lm, sl, rt⟩ := it
  cases ok <;> cases md <;>
    rcases fn with _ | ⟨_ | u⟩ <;>
      rfl

theorem collectEntries_length (resolve : Nat → Option UnixUser)
    (stream : List RawItem) :
    (collectEntries resolve stream).length = (stream.filter keeps).length := by
  induction stream with
  | nil => rfl
  | cons it rest ih =>
    unfold collectEntries at ih ⊢
    rw [List.filterMap_cons, List.filter_cons]
    have h := processItem_isSome resolve it
    cases hp : processItem resolve it with
    | none =>
      rw [hp] at h
      simp only [Option.isSome_none] at h
      rw [← h]
      simpa using ih
    | some e =>
      rw [hp] at h
      simp only [Option.isSome_some] at h
      rw [← h]
      simpa using ih

theorem parse_toOctal (n : Nat) : parseOctal (toOctalString n) = n := by
  by_cases h : n = 0
  · subst h
    decide
  · unfold toOctalString parseOctal
    rw [if_neg h]
    show Nat.ofDigits 8
        ((((Nat.digits 8 n).reverse.map octalDigitChar)).map octalCharVal).reverse = n
    rw [List.map_map]
    have hid : ∀ x ∈ (Nat.digits 8 n).reverse, (octalCharVal ∘ octalDigitChar) x = x := by
      intro x hx
      rw [List.mem_reverse] at hx
      have hlt : x < 8 := Nat.digits_lt_base (by norm_num) hx
      exact (by decide : ∀ x < 8, (octalCharVal ∘ octalDigitChar) x = x) x hlt
    rw [List.map_congr_left hid, List.map_id', List.reverse_reverse, Nat.ofDigits_digits]

/-- C2: for every file-type bit pattern, `DirectoryEntryKind::from` returns
exactly one of the seven tags along the fixed precedence chain — `File`
first, then `Directory`, `Socket`, `Character` (character device), `Block`
(block device), `Fifo`, and `Unknown` exactly when none of the six
predicates holds — deterministically, as a pure function. -/
theorem claim2_classifier (ft : FileType) :
    (DirectoryEntryKind.fromType ft = DirectoryEntryKind.File ↔ ft.is_file = true) ∧
    (DirectoryEntryKind.fromType ft = DirectoryEntryKind.Directory ↔
      (ft.is_file = false ∧ ft.is_dir = true)) ∧
    (DirectoryEntryKind.fromType ft = DirectoryEntryKind.Socket ↔
      (ft.is_file = false ∧ ft.is_dir = false ∧ ft.is_socket = true)) ∧
    (DirectoryEntryKind.fromType ft = DirectoryEntryKind.Character ↔
      (ft.is_file = false ∧ ft.is_dir = false ∧ ft.is_socket = false ∧
        ft.is_char_device = true)) ∧
    (DirectoryEntryKind.fromType ft = DirectoryEntryKind.Block ↔
      (ft.is_file = false ∧ ft.is_dir = false ∧ ft.is_socket = false ∧
        ft.is_char_device = false ∧ ft.is_block_device = true)) ∧
    (DirectoryEntryKind.fromType ft = DirectoryEntryKind.Fifo ↔
      (ft.is_file = false ∧ ft.is_dir = false ∧ ft.is_socket = false ∧
        ft.is_char_device = false ∧ ft.is_block_device = false ∧
        ft.is_fifo = true)) ∧
    (DirectoryEntryKind.fromType ft = DirectoryEntryKind.Unknown ↔
      (ft.is_file = false ∧ ft.is_dir = false ∧ ft.is_socket = false ∧
        ft.is_char_device = false ∧ ft.is_block_device = false ∧
        ft.is_fifo = false)) := by
  obtain ⟨f, d, s, c, b, i⟩ := ft
  revert f d s c b i
  decide

/-- C8: formatting a mode through the permission formatter used in each
entry line (`as_bits_sum` rendered base-8) and parsing the octal display
back recovers the mode's low permission bits (the mode modulo 512). -/
theorem claim8_octal_roundtrip (mode : Nat) :
    parseOctal (toOctalString ((UnixPermissions.fromMode mode).as_bits_sum)) =
      mode % 512 :=
  parse_toOctal (mode % 512)

/-- C9: the entry stream is consumed exactly once — after one listing pass
on a `Directory` value the stream is exhausted, and a second invocation of
the listing on the resulting value traverses no items and yields an empty
entry list. -/
theorem claim9_single_pass (resolve : Nat → Option UnixUser) (p : String)
    (st : List RawItem) :
    ((((Directory.mk p st).get_entries resolve).2).get_entries resolve).1 = [] ∧
    (((Directory.mk p st).get_entries resolve).2).stream = [] :=
  ⟨rfl, rfl⟩

/-- C1: the reported entry list contains exactly the raw stream items whose
yield, name and metadata steps all succeeded: the reported count equals the
number of such items, an item failing a step contributes nothing and does
not abort the traversal of the rest, and an item passing every step
contributes exactly one record. -/
theorem claim1_best_effort (resolve : Nat → Option UnixUser) (p : String)
    (st : List RawItem) :
    (((Directory.mk p st).get_entries resolve).1).length =
        (st.filter keeps).length ∧
    (∀ (it : RawItem) (rest : List RawItem), keeps it = false →
      collectEntries resolve (it :: rest) = collectEntries resolve rest) ∧
    (∀ (it : RawItem) (rest : List RawItem), keeps it = true →
      ∃ e : DirectoryEntry, processItem resolve it = some e ∧
        collectEntries resolve (it :: rest) = e :: collectEntries resolve rest) := by
  refine ⟨?_, ?_, ?_⟩
  · show (List.insertionSort entryLe (collectEntries resolve st)).length = _
    rw [List.length_insertionSort, collectEntries_length]
  · intro it rest h
    have hs := processItem_isSome resolve it
    rw [h] at hs
    cases hp : processItem resolve it with
    | none =>
      unfold collectEntries
      rw [List.filterMap_cons, hp]
    | some e =>
      rw [hp] at hs
      simp at hs
  · intro it rest h
    have hs := processItem_isSome resolve it
    rw [h, Option.isSome_iff_exists] at hs
    obtain ⟨e, he⟩ := hs
    refine ⟨e, he, ?_⟩
    unfold collectEntries
    rw [List.filterMap_cons, he]

/-- C1 witness: a failed stream yield is skipped without aborting the rest. -/
theorem claim1_witness :
    collectEntries sampleResolve (badItem :: [goodItem]) =
      collectEntries sampleResolve [goodItem] :=
  (claim1_best_effort sampleResolve "d" []).2.1 badItem [goodItem] (by decide)

/-- C4 counterexample: the remediation hint built at `directory.rs:170` is
not the text quoted by the claim (the code says "ensure that you have
enough permissions to read it.", with "that" and a trailing period). -/
theorem claim4_counterexample :
    (match Directory.get_stream none with
      | Except.error e => e.hint
      | Except.ok _ => "") ≠
      "ensure you have enough permissions to read it" := by
  decide

/-- C4 (amended): when the directory cannot be opened the operation yields
no entry output, surfaces the short message "could not read directory." and
the remediation hint "ensure that you have enough permissions to read it.",
and terminates with the non-zero exit status 1; a successfully opened
stream never makes the operation fail, so the open failure is the only
error crossing the boundary. -/
theorem claim4_open_failure (resolve : Nat → Option UnixUser)
    (fmt : Nat → String) (p : String) :
    runDirectory resolve fmt p none =
      Except.error
        ⟨"could not read directory.",
          "ensure that you have enough permissions to read it.", 1⟩ ∧
    (∀ e : Error, runDirectory resolve fmt p none = Except.error e →
      e.code ≠ 0) ∧
    (∀ st : List RawItem, ∃ lines : List String,
      runDirectory resolve fmt p (some st) = Except.ok lines) := by
  refine ⟨rfl, ?_, ?_⟩
  · intro e he
    have : e = ⟨"could not read directory.",
        "ensure that you have enough permissions to read it.", 1⟩ := by
      cases he
      rfl
    rw [this]
    decide
  · intro st
    exact ⟨(Directory.reveal resolve fmt ⟨p, st⟩).1, rfl⟩

/-- C4 witness: the open-failure error at a concrete run carries a non-zero
exit code. -/
theorem claim4_witness :
    (⟨"could not read directory.",
      "ensure that you have enough permissions to read it.", 1⟩ : Error).code ≠ 0 :=
  (claim4_open_failure sampleResolve sampleFmt "d").2.1 _ rfl

/-- C5: a reported entry stores exactly the raw `read_link` result — the
link's raw target text, not canonicalized — so the field is populated only
for symbolic links (by the operating-system guarantee that `read_link`
succeeds only on symlinks), non-symlink entries always have it empty, and
whether an item is kept is independent of the link-target read outcome, so
a target-read failure yields an absent field rather than a dropped entry. -/
theorem claim5_symlink_target (resolve : Nat → Option UnixUser)
    (it : RawItem) (e : DirectoryEntry)
    (he : processItem resolve it = some e)
    (hos : it.readLinkTarget.isSome = true → it.isSymlink = true) :
    e.symlink_path = it.readLinkTarget ∧
    (e.symlink_path.isSome = true → it.isSymlink = true) ∧
    (it.isSymlink = false → e.symlink_path = none) ∧
    (∀ it' : RawItem, it'.ok = it.ok → it'.fileName = it.fileName →
      it'.metadata = it.metadata → keeps it' = keeps it) := by
  have h1 : e.symlink_path = it.readLinkTarget := by
    obtain ⟨ok, fn, md, lm, sl, rt⟩ := it
    cases ok <;> cases md <;> rcases fn with _ | ⟨_ | u⟩ <;>
      simp only [processItem] at he <;> cases he <;> rfl
  refine ⟨h1, ?_, ?_, ?_⟩
  · intro hsome
    exact hos (h1 ▸ hsome)
  · intro hno
    rw [h1]
    cases hrt : it.readLinkTarget with
    | none => rfl
    | some t =>
      have := hos (by rw [hrt]; rfl)
      rw [this] at hno
      cases hno
  · intro it' h1' h2' h3'
    unfold keeps
    rw [h1', h2', h3']

/-- C5 witness: the entry built from a concrete readable symlink stores the
raw target. -/
theorem claim5_witness :
    linkEntry.symlink_path = linkItem.readLinkTarget :=
  (claim5_symlink_target sampleResolve linkItem linkEntry rfl
    (fun _ => rfl)).1

/-- C6: the rendered owner field of an entry line is the empty string
exactly when the owning uid was not resolved (display names of resolved
users being nonempty), and resolution failure never drops an entry: the
number of collected entries does not depend on the resolver at all. -/
theorem claim6_owner_field (e : DirectoryEntry)
    (hn : ∀ u : UnixUser, e.owner = some u → u.get_name ≠ "") :
    (e.ownerString = "" ↔ e.owner = none) ∧
    (∀ (resolve resolve' : Nat → Option UnixUser) (st : List RawItem),
      (collectEntries resolve st).length = (collectEntries resolve' st).length) := by
  constructor
  · cases ho : e.owner with
    | none =>
      simp [DirectoryEntry.ownerString, ho]
    | some u =>
      simp only [DirectoryEntry.ownerString, ho]
      constructor
      · intro hcontra
        exact absurd hcontra (hn u ho)
      · intro hcontra
        cases hcontra
  · intro resolve resolve' st
    rw [collectEntries_length, collectEntries_length]

/-- C6 witness: a concrete entry with an unresolvable owner renders an
empty owner field. -/
theorem claim6_witness :
    ownerlessEntry.ownerString = "" ↔ ownerlessEntry.owner = none :=
  (claim6_owner_field ownerlessEntry (fun u h => by cases h)).1

/-- C10: the per-item metadata is fetched through the path following
symbolic links, so a kept entry's kind, size, permission mode and owner are
all derived from that followed metadata (for a symlink, the target's) and
are independent of the link object's own metadata, while an item whose
followed metadata fetch fails — in particular a broken symlink — is never
reported. -/
theorem claim10_metadata_follows (resolve : Nat → Option UnixUser)
    (it : RawItem) :
    (∀ md : Metadata, it.metadata = some md →
      ∀ e : DirectoryEntry, processItem resolve it = some e →
        e.kind = DirectoryEntryKind.fromType md.file_type ∧
        e.size = DigitalSize.fromBytes md.size ∧
        e.permissions = UnixPermissions.fromMode md.mode ∧
        e.owner = resolve md.uid) ∧
    (it.metadata = none → processItem resolve it = none) ∧
    (it.metadata = none → keeps it = false) ∧
    (∀ lm : Option Metadata,
      processItem resolve { it with linkMetadata := lm } =
        processItem resolve it) := by
  refine ⟨?_, ?_, ?_, ?_⟩
  · intro md hmd e he
    obtain ⟨ok, fn, md', lm, sl, rt⟩ := it
    cases hmd
    cases ok <;> rcases fn with _ | ⟨_ | u⟩ <;>
      simp only [processItem] at he <;> cases he <;>
      exact ⟨rfl, rfl, rfl, rfl⟩
  · intro hmd
    obtain ⟨ok, fn, md', lm, sl, rt⟩ := it
    cases hmd
    cases ok <;> rcases fn with _ | ⟨_ | u⟩ <;> rfl
  · intro hmd
    obtain ⟨ok, fn, md', lm, sl, rt⟩ := it
    cases hmd
    cases ok <;> rcases fn with _ | ⟨_ | u⟩ <;> rfl
  · intro lm
    obtain ⟨ok, fn, md', lm', sl, rt⟩ := it
    rfl

/-- C10 witness: a concrete broken symlink (successful `read_link`, failed
followed-metadata fetch) is dropped from the report. -/
theorem claim10_witness :
    processItem sampleResolve brokenLinkItem = none :=
  (claim10_metadata_follows sampleResolve brokenLinkItem).2.1 rfl

theorem filter_name_orderedInsert (n : String) (a : DirectoryEntry)
    (l : List DirectoryEntry) :
    (List.orderedInsert entryLe a l).filter (fun e => e.name == n) =
      if a.name == n then a :: l.filter (fun e => e.name == n)
      else l.filter (fun e => e.name == n) := by
  induction l with
  | nil =>
    by_cases ha : (a.name == n) = true <;>
      simp [List.orderedInsert, List.filter_cons, ha]
  | cons b l ih =>
    rw [List.orderedInsert]
    by_cases hab : entryLe a b
    · rw [if_pos hab]
      by_cases ha : (a.name == n) = true <;>
        by_cases hb : (b.name == n) = true <;>
        simp [List.filter_cons, ha, hb]
    · rw [if_neg hab]
      by_cases hb : (b.name == n) = true
      · by_cases ha : (a.name == n) = true
        · exfalso
          apply hab
          have hbn : b.name = n := by simpa using hb
          have han : a.name = n := by simpa using ha
          show a.name ≤ b.name
          rw [han, hbn]
        · simp [List.filter_cons, hb, ha, ih]
      · by_cases ha : (a.name == n) = true <;>
          simp [List.filter_cons, hb, ha, ih]

theorem filter_name_insertionSort (n : String) (l : List DirectoryEntry) :
    (List.insertionSort entryLe l).filter (fun e => e.name == n) =
      l.filter (fun e => e.name == n) := by
  induction l with
  | nil => rfl
  | cons a l ih =>
    rw [List.insertionSort, filter_name_orderedInsert, ih, List.filter_cons]

/-- C3: the reported entry list is sorted by entry name in ascending
lexicographic order (the byte order of the UTF-8 names); the name order is
total and transitive, the sort is stable (entries sharing a name keep
their collection order), sorting the already-sorted output again returns
it unchanged (idempotence), the output is a permutation of the collected
records, and equal inputs give equal output order (determinism). -/
theorem claim3_sorted_output (resolve : Nat → Option UnixUser) (p : String)
    (st : List RawItem) :
    List.Sorted entryLe (((Directory.mk p st).get_entries resolve).1) ∧
    List.insertionSort entryLe (((Directory.mk p st).get_entries resolve).1) =
      ((Directory.mk p st).get_entries resolve).1 ∧
    (((Directory.mk p st).get_entries resolve).1).Perm
      (collectEntries resolve st) ∧
    (∀ n : String,
      (((Directory.mk p st).get_entries resolve).1).filter (fun e => e.name == n) =
        (collectEntries resolve st).filter (fun e => e.name == n)) ∧
    (∀ a b : DirectoryEntry, entryLe a b ∨ entryLe b a) ∧
    (∀ st' : List RawItem, st' = st →
      ((Directory.mk p st').get_entries resolve).1 =
        ((Directory.mk p st).get_entries resolve).1) := by
  refine ⟨?_, ?_, ?_, ?_, ?_, ?_⟩
  · exact List.sorted_insertionSort entryLe (collectEntries resolve st)
  · exact (List.sorted_insertionSort entryLe
      (collectEntries resolve st)).insertionSort_eq
  · exact List.perm_insertionSort entryLe (collectEntries resolve st)
  · intro n
    exact filter_name_insertionSort n (collectEntries resolve st)
  · intro a b
    exact le_total a.name b.name
  · intro st' h
    rw [h]

/-- C3 witness: re-listing the same unchanged stream reproduces the same
order. -/
theorem claim3_witness :
    ((Directory.mk "d" [goodItem, badItem]).get_entries sampleResolve).1 =
      ((Directory.mk "d" [goodItem, badItem]).get_entries sampleResolve).1 :=
  (claim3_sorted_output sampleResolve "d" [goodItem, badItem]).2.2.2.2.2
    [goodItem, badItem] rfl

/-- C7: the report opens with a header line naming the directory and one
column-header line, followed by exactly one line per entry in sorted
order; the line for the i-th entry is its zero-based running index,
formatted by the number formatter and right-aligned to width 6, then
" | ", then the entry rendered as link-marker (`@` for symlinks, a space
otherwise), kind name left-aligned to width 9, size right-aligned to
width 7, symbolic permissions with the octal bits sum in parentheses,
owner left-aligned to width 10, name, and a " -> target" suffix exactly
when a symlink target is present; an empty entry list yields the two
header lines and nothing else. -/
theorem claim7_report_layout (resolve : Nat → Option UnixUser)
    (fmt : Nat → String) (p : String) (st : List RawItem) :
    ((Directory.reveal resolve fmt ⟨p, st⟩).1).length =
        2 + (((Directory.mk p st).get_entries resolve).1).length ∧
    ((Directory.reveal resolve fmt ⟨p, st⟩).1)[0]? =
        some ("Revealing directory: " ++ p ++ ".") ∧
    ((Directory.reveal resolve fmt ⟨p, st⟩).1)[1]? =
        some " Index | Type            Size   Permissions       Owner        Name" ∧
    (∀ i : Nat, ((Directory.reveal resolve fmt ⟨p, st⟩).1)[i + 2]? =
        ((((Directory.mk p st).get_entries resolve).1)[i]?).map
          (fun e => padLeftTo 6 (fmt i) ++ " | " ++ e.as_string)) ∧
    (((Directory.mk p st).get_entries resolve).1 = [] →
        (Directory.reveal resolve fmt ⟨p, st⟩).1 =
          [("Revealing directory: " ++ p ++ "."),
            " Index | Type            Size   Permissions       Owner        Name"]) ∧
    (∀ e : DirectoryEntry,
        (e.symlinkDecorator = "@" ↔ e.symlink_path.isSome = true) ∧
        (e.symlinkDecorator = " " ↔ e.symlink_path = none) ∧
        (∀ t : String, e.symlink_path = some t →
          e.symlinkSuffix = " -> " ++ t) ∧
        (e.symlink_path = none → e.symlinkSuffix = "") ∧
        e.as_string = e.symlinkDecorator ++ padRightTo 9 e.kind.as_string ++
          "   " ++ padLeftTo 7 e.size.as_string ++ "   " ++
          e.permissions.as_string ++ " (" ++
          toOctalString e.permissions.as_bits_sum ++ ")   " ++
          padRightTo 10 e.ownerString ++ "   " ++ e.name ++ e.symlinkSuffix) := by
  refine ⟨?_, ?_, ?_, ?_, ?_, ?_⟩
  · show (revealLines fmt p (((Directory.mk p st).get_entries resolve).1)).length = _
    unfold revealLines
    rw [List.length_cons, List.length_cons, List.length_map, List.enum_length]
    omega
  · show (revealLines fmt p (((Directory.mk p st).get_entries resolve).1))[0]? = _
    rfl
  · show (revealLines fmt p (((Directory.mk p st).get_entries resolve).1))[1]? = _
    unfold revealLines
    rw [show (1 : Nat) = 0 + 1 from rfl, List.getElem?_cons_succ,
      List.getElem?_cons_zero]
  · intro i
    show (("Revealing directory: " ++ p ++ ".") ::
        " Index | Type            Size   Permissions       Owner        Name" ::
        (((Directory.mk p st).get_entries resolve).1).enum.map
          (fun q => padLeftTo 6 (fmt q.1) ++ " | " ++ q.2.as_string))[i + 2]? = _
    rw [show i + 2 = (i + 1) + 1 from rfl, List.getElem?_cons_succ,
      List.getElem?_cons_succ, List.getElem?_map, List.getElem?_enum,
      Option.map_map]
    rfl
  · intro h
    show revealLines fmt p (((Directory.mk p st).get_entries resolve).1) = _
    rw [h]
    rfl
  · intro e
    refine ⟨?_, ?_, ?_, ?_, rfl⟩
    · cases hsp : e.symlink_path with
      | none =>
        simp only [DirectoryEntry.symlinkDecorator, hsp, Option.isSome_none]
        constructor
        · intro hcontra
          exact absurd hcontra (by decide)
        · intro hcontra
          cases hcontra
      | some t =>
        simp [DirectoryEntry.symlinkDecorator, hsp]
    · cases hsp : e.symlink_path with
      | none => simp [DirectoryEntry.symlinkDecorator, hsp]
      | some t =>
        simp only [DirectoryEntry.symlinkDecorator, hsp]
        constructor
        · intro hcontra
          exact absurd hcontra (by decide)
        · intro hcontra
          cases hcontra
    · intro t ht
      simp [DirectoryEntry.symlinkSuffix, ht]
    · intro hno
      simp [DirectoryEntry.symlinkSuffix, hno]

/-- C7 witness: a concrete empty directory yields exactly the header line
and the column-header line. -/
theorem claim7_witness :
    (Directory.reveal sampleResolve sampleFmt ⟨"d", []⟩).1 =
      ["Revealing directory: " ++ "d" ++ ".",
        " Index | Type            Size   Permissions       Owner        Name"] :=
  (claim7_report_layout sampleResolve sampleFmt "d" []).2.2.2.2.1 rfl

end Rvl
